import Mathlib

/-!
Verification development for the MindMate chat assistant core:
the keyword-driven fallback responders (client-side `generateFallbackResponse`
in the Chatbot component and the server-side `generateFallbackResponse` in the
edge function) and the conversation orchestration around them
(`callChatbotAPI`, `sendMessage`).

The definitions below are shallow embeddings of the TypeScript source:
JS `String.prototype.includes` becomes `strIncludes`, `toLowerCase` becomes
`strToLower`, `trim()` becomes `strTrim` (the trigger substrings are ASCII,
where these coincide with JS semantics), asynchronous sequential `await`s
become sequential state passing, and the external collaborators (the
persistent store and the remote assistant endpoint) become explicit oracle
parameters.
-/

set_option maxRecDepth 100000

namespace MindMate

/-- Embedding of JS `haystack.includes(needle)` on lists of characters:
true iff `pat` occurs as a contiguous sublist. -/
def listIncludes (pat : List Char) : List Char → Bool
  | [] => pat.isEmpty
  | c :: rest => pat.isPrefixOf (c :: rest) || listIncludes pat rest

/-- The function `strIncludes s pat` embeds JS `s.includes(pat)`. -/
def strIncludes (s pat : String) : Bool :=
  listIncludes pat.toList s.toList

/-- Embedding of JS `toLowerCase()`: lower-case every character. On the ASCII
trigger substrings used by the responders this coincides with JS semantics.
(Character-by-character, like `String.toLower`, but written directly on the
underlying character list so that it evaluates by kernel reduction.) -/
def strToLower (s : String) : String :=
  ⟨s.data.map Char.toLower⟩

/-! ### Canned response texts of the client-side fallback responder
(Chatbot component, `generateFallbackResponse`). -/

def anxietyResponse : String :=
  "I understand you're feeling anxious. That's a very real experience, and it's brave of you to share it. Try this simple breathing exercise: breathe in for 4 counts, hold for 4, and exhale for 4. What specifically is making you feel anxious today?"

def sadResponse : String :=
  "I hear that you're feeling down. These feelings are valid and you're not alone. Have you been able to talk to anyone close to you about what you're experiencing? What's been weighing on you?"

def stressResponse : String :=
  "Stress can feel overwhelming. Here are some things that might help: Take short breaks, engage in activities you enjoy, exercise even briefly, and talk to someone you trust. What's been your biggest stressor lately?"

def sleepResponse : String :=
  "Sleep difficulties can really impact how you feel overall. Try maintaining a consistent sleep schedule, avoiding screens 30 minutes before bed, and keeping your room cool and dark. Are you dealing with racing thoughts keeping you awake?"

def crisisResponse : String :=
  "I'm really glad you reached out. If you're in crisis, please contact emergency services immediately. In the US, you can call 988 (Suicide & Crisis Lifeline) or text 'HELLO' to 741741. These services are available 24/7. You matter."

def gratitudeResponse : String :=
  "You're very welcome. Reaching out and taking care of your mental health is a sign of strength. I'm here whenever you need to talk."

def defaultResponse : String :=
  "Thank you for sharing that with me. I'm here to listen and support you. Could you tell me more about what's on your mind?"

/-- Client-side fallback responder, embedded from the Chatbot component's
`generateFallbackResponse`. The branch order is exactly the source's branch
order: anxiety, sadness, stress, sleep, crisis, gratitude, default. -/
def generateFallbackResponse (userMessage : String) : String :=
  let lowerMessage := strToLower userMessage
  if strIncludes lowerMessage "anxious" || strIncludes lowerMessage "anxiety" then
    anxietyResponse
  else if strIncludes lowerMessage "sad" || strIncludes lowerMessage "depressed" then
    sadResponse
  else if strIncludes lowerMessage "stress" then
    stressResponse
  else if strIncludes lowerMessage "sleep" || strIncludes lowerMessage "insomnia" then
    sleepResponse
  else if strIncludes lowerMessage "help" || strIncludes lowerMessage "crisis" ||
      strIncludes lowerMessage "harm" || strIncludes lowerMessage "suicid" then
    crisisResponse
  else if strIncludes lowerMessage "thank" then
    gratitudeResponse
  else
    defaultResponse

/-! ### Canned response texts of the server-side fallback responder
(edge function `generateFallbackResponse`). -/

def edgeAnxietyResponse : String :=
  "I understand you're feeling anxious. That's a very real experience, and it's brave of you to share it. Anxiety is a common response our bodies have, and there are effective techniques to manage it. Try this simple breathing exercise: breathe in for 4 counts, hold for 4, and exhale for 4. This can help calm your nervous system. What specifically is making you feel anxious today? I'm here to listen."

def edgeSadResponse : String :=
  "I hear that you're feeling down, and I'm genuinely glad you reached out. These feelings are valid and you're not alone. Depression can make everything feel heavier, but remember that these feelings can change. Have you been able to talk to anyone close to you about what you're experiencing? Sometimes sharing with friends, family, or a mental health professional can really help. What's been weighing on you?"

def edgeStressResponse : String :=
  "Stress can feel overwhelming, and I appreciate you opening up about it. Here are some things that might help: Take short breaks throughout your day to breathe and reset. Engage in activities you enjoy, even for 10 minutes. Exercise, even a short walk, can release stress-relieving endorphins. Talk to someone you trust. If stress is affecting your daily life, speaking with a professional could provide great support. What's been your biggest stressor lately?"

def edgeSleepResponse : String :=
  "Sleep difficulties can really impact how you feel overall. Here are some science-backed suggestions: Maintain a consistent sleep schedule, avoid screens 30 minutes before bed, keep your room cool and dark, and try relaxation techniques like meditation. If sleep problems persist for weeks, it's worth discussing with a healthcare provider. Are you dealing with racing thoughts, physical restlessness, or something else keeping you awake?"

def edgeCrisisResponse : String :=
  "I'm really glad you reached out. If you're in crisis or having thoughts of self-harm, please contact emergency services immediately. In the US, you can call 988 (Suicide & Crisis Lifeline) or text 'HELLO' to 741741 (Crisis Text Line). These services are free, confidential, and available 24/7. You matter, and there are people ready to help. Would you like to talk about what's happening?"

def edgeGratitudeResponse : String :=
  "You're very welcome. Remember, reaching out and taking care of your mental health is a sign of strength, not weakness. I'm here whenever you need to talk. Don't hesitate to reach out to our community or professional mental health resources as well. How are you feeling right now?"

def edgeDefaultResponse : String :=
  "Thank you for sharing that with me. I'm here to listen and support you on your mental wellness journey. What you're feeling is important. Could you tell me more about what's on your mind? I'm genuinely interested in understanding your situation better."

/-- Server-side fallback responder, embedded from the edge function's
`generateFallbackResponse`. Same branch structure as the client one,
different response wordings. -/
def edgeGenerateFallbackResponse (userMessage : String) : String :=
  let lowerMessage := strToLower userMessage
  if strIncludes lowerMessage "anxious" || strIncludes lowerMessage "anxiety" then
    edgeAnxietyResponse
  else if strIncludes lowerMessage "sad" || strIncludes lowerMessage "depressed" then
    edgeSadResponse
  else if strIncludes lowerMessage "stress" then
    edgeStressResponse
  else if strIncludes lowerMessage "sleep" || strIncludes lowerMessage "insomnia" then
    edgeSleepResponse
  else if strIncludes lowerMessage "help" || strIncludes lowerMessage "crisis" ||
      strIncludes lowerMessage "harm" || strIncludes lowerMessage "suicid" then
    edgeCrisisResponse
  else if strIncludes lowerMessage "thank" then
    edgeGratitudeResponse
  else
    edgeDefaultResponse

/-! ### Branch selection, shared by the two responders

`FallbackCategory` records which branch of a responder fires. `clientCategory`
and `edgeCategory` transcribe the branch conditions of the client-side and the
server-side `generateFallbackResponse` respectively, in their exact source
order; `clientResponseFor` / `edgeResponseFor` map each branch to that
implementation's response text. -/

inductive FallbackCategory where
  | anxiety
  | sadness
  | stress
  | sleep
  | crisis
  | gratitude
  | generic
deriving DecidableEq

/-- Branch selector of the client-side `generateFallbackResponse`, condition
for condition in source order. -/
def clientCategory (userMessage : String) : FallbackCategory :=
  let lowerMessage := strToLower userMessage
  if strIncludes lowerMessage "anxious" || strIncludes lowerMessage "anxiety" then
    .anxiety
  else if strIncludes lowerMessage "sad" || strIncludes lowerMessage "depressed" then
    .sadness
  else if strIncludes lowerMessage "stress" then
    .stress
  else if strIncludes lowerMessage "sleep" || strIncludes lowerMessage "insomnia" then
    .sleep
  else if strIncludes lowerMessage "help" || strIncludes lowerMessage "crisis" ||
      strIncludes lowerMessage "harm" || strIncludes lowerMessage "suicid" then
    .crisis
  else if strIncludes lowerMessage "thank" then
    .gratitude
  else
    .generic

/-- Branch selector of the edge function's `generateFallbackResponse`,
condition for condition in source order. -/
def edgeCategory (userMessage : String) : FallbackCategory :=
  let lowerMessage := strToLower userMessage
  if strIncludes lowerMessage "anxious" || strIncludes lowerMessage "anxiety" then
    .anxiety
  else if strIncludes lowerMessage "sad" || strIncludes lowerMessage "depressed" then
    .sadness
  else if strIncludes lowerMessage "stress" then
    .stress
  else if strIncludes lowerMessage "sleep" || strIncludes lowerMessage "insomnia" then
    .sleep
  else if strIncludes lowerMessage "help" || strIncludes lowerMessage "crisis" ||
      strIncludes lowerMessage "harm" || strIncludes lowerMessage "suicid" then
    .crisis
  else if strIncludes lowerMessage "thank" then
    .gratitude
  else
    .generic

/-- Response text of the client-side responder for each branch. -/
def clientResponseFor : FallbackCategory → String
  | .anxiety => anxietyResponse
  | .sadness => sadResponse
  | .stress => stressResponse
  | .sleep => sleepResponse
  | .crisis => crisisResponse
  | .gratitude => gratitudeResponse
  | .generic => defaultResponse

/-- Response text of the edge function's responder for each branch. -/
def edgeResponseFor : FallbackCategory → String
  | .anxiety => edgeAnxietyResponse
  | .sadness => edgeSadResponse
  | .stress => edgeStressResponse
  | .sleep => edgeSleepResponse
  | .crisis => edgeCrisisResponse
  | .gratitude => edgeGratitudeResponse
  | .generic => edgeDefaultResponse

/-- The predicate `mentionsTrigger m` is true iff any of the thirteen trigger substrings of
the responders occurs in the lower-cased message; transcribed from the union
of the branch conditions. -/
def mentionsTrigger (m : String) : Bool :=
  let lowerMessage := strToLower m
  strIncludes lowerMessage "anxious" || strIncludes lowerMessage "anxiety" ||
  strIncludes lowerMessage "sad" || strIncludes lowerMessage "depressed" ||
  strIncludes lowerMessage "stress" ||
  strIncludes lowerMessage "sleep" || strIncludes lowerMessage "insomnia" ||
  strIncludes lowerMessage "help" || strIncludes lowerMessage "crisis" ||
  strIncludes lowerMessage "harm" || strIncludes lowerMessage "suicid" ||
  strIncludes lowerMessage "thank"

/-! ### Conversation orchestration (`callChatbotAPI`, `sendMessage`)

The persistent store and the remote endpoint are external collaborators;
they appear as explicit parameters: boolean failure oracles for the two
`chat_messages` inserts of a turn, and a function from the request payload
(conversation history plus new message) to a `RemoteOutcome` for the remote
call. -/

/-- Embedding of JS `trim()`: strip leading and trailing whitespace. -/
def strTrim (s : String) : String :=
  ⟨((s.data.dropWhile Char.isWhitespace).reverse.dropWhile Char.isWhitespace).reverse⟩

/-- One row of the `chat_messages` table (`ChatMessage` minus the opaque `id`;
`created_at` is the store clock value at insertion). -/
structure MessageRow where
  session_id : Nat
  user_id : Nat
  message : String
  is_bot : Bool
  created_at : Nat
deriving DecidableEq

/-- The `chat_messages` table plus the store clock that stamps `created_at`. -/
structure Store where
  rows : List MessageRow
  now : Nat
deriving DecidableEq

/-- Embeds `supabase.from('chat_messages').insert([row])`: the store either
reports an error and is unchanged (`fails` oracle true) or appends the row
stamped with the current clock and advances the clock. -/
def insertMessage (st : Store) (fails : Bool) (sid uid : Nat) (text : String)
    (isBot : Bool) : Option Store :=
  if fails then none
  else some ⟨st.rows ++ [⟨sid, uid, text, isBot, st.now⟩], st.now + 1⟩

/-- Embeds `loadMessages(sessionId)`: the session's rows ordered by
`created_at` ascending. Rows are appended with a strictly increasing clock,
so stored order is already ascending and the query is a filter. -/
def sessionRows (st : Store) (sid : Nat) : List MessageRow :=
  st.rows.filter (fun r => r.session_id == sid)

/-- Outcome of the `fetch` to the chatbot edge function as observed by
`callChatbotAPI`: either `fetch`/`response.json()` throws (transport error),
or an HTTP response arrives with its `ok` flag and the optional `response`
string field of the parsed JSON body (`none` when the field is absent). -/
inductive RemoteOutcome where
  | transportError
  | httpResponse (ok : Bool) (responseField : Option String)
deriving DecidableEq

/-- The `conversationHistory` array `callChatbotAPI` builds from the loaded
messages: role tag (assistant for bot rows, user otherwise) with content. -/
def conversationHistory (msgs : List MessageRow) : List (String × String) :=
  msgs.map (fun m => (if m.is_bot then "assistant" else "user", m.message))

/-- The hard-coded default of `data.response || 'Thank you for sharing. ...'`
used when a 2xx body has no usable `response` field. -/
def missingReplyDefault : String := "Thank you for sharing. I'm here to listen."

/-- The advisory text set by the catch block of `callChatbotAPI`. -/
def connectionIssueMessage : String := "Connection issue. Using fallback response."

/-- Result of `callChatbotAPI`: the reply text and whether the catch block
set the `apiError` advisory. -/
structure ApiResult where
  text : String
  apiErrorSet : Bool
deriving DecidableEq

/-- Embeds `callChatbotAPI`. A non-`ok` status throws (`throw new Error`) and
lands in the catch block, which logs, sets the advisory and returns the
fallback applied to `userMessage`; a transport error does the same. On a 2xx
body, `data.response || default` yields the field when present and non-empty
(JS `||` treats the empty string as falsy), else the hard-coded default. -/
def callChatbotAPI (remote : List (String × String) → String → RemoteOutcome)
    (msgs : List MessageRow) (userMessage : String) : ApiResult :=
  match remote (conversationHistory msgs) userMessage with
  | .transportError => ⟨generateFallbackResponse userMessage, true⟩
  | .httpResponse ok responseField =>
    if ok then
      match responseField with
      | some r => if r = "" then ⟨missingReplyDefault, false⟩ else ⟨r, false⟩
      | none => ⟨missingReplyDefault, false⟩
    else ⟨generateFallbackResponse userMessage, true⟩

/-- The Chatbot component state read or written by `sendMessage`. -/
structure ChatState where
  input : String
  loading : Bool
  apiError : String
  messages : List MessageRow
  currentSession : Option Nat
  user : Option Nat
deriving DecidableEq

/-- Result of one `sendMessage` call: component state, store state, and
whether `callChatbotAPI` was reached (`remoteCalled`). -/
structure TurnResult where
  state : ChatState
  store : Store
  remoteCalled : Bool
deriving DecidableEq

/-- Embeds `sendMessage`. Sequential `await`s become sequential state passing;
`userInsertFails` / `botInsertFails` are the failure oracle for the two
inserts. The JS truthiness guard
`!input.trim() || !currentSession || !user || loading` becomes the
corresponding disjunction. Per React state semantics the `messages` binding
read inside `callChatbotAPI` is the one captured when this `sendMessage`
closure was created, i.e. the pre-turn message list. -/
def sendMessage (remote : List (String × String) → String → RemoteOutcome)
    (userInsertFails botInsertFails : Bool) (s : ChatState) (st : Store) :
    TurnResult :=
  if strTrim s.input = "" ∨ s.currentSession = none ∨ s.user = none ∨ s.loading = true then
    ⟨s, st, false⟩
  else
    match s.currentSession, s.user with
    | some sid, some uid =>
      let userMessage := strTrim s.input
      let s1 : ChatState := { s with loading := true, apiError := "", input := "" }
      match insertMessage st userInsertFails sid uid userMessage false with
      | none => ⟨{ s1 with loading := false }, st, false⟩
      | some st1 =>
        let s2 : ChatState := { s1 with messages := sessionRows st1 sid }
        let api := callChatbotAPI remote s.messages userMessage
        let s3 : ChatState :=
          { s2 with apiError := if api.apiErrorSet then connectionIssueMessage else s2.apiError }
        match insertMessage st1 botInsertFails sid uid api.text true with
        | none => ⟨{ s3 with loading := false }, st1, true⟩
        | some st2 =>
          ⟨{ s3 with messages := sessionRows st2 sid, loading := false }, st2, true⟩
    | _, _ => ⟨s, st, false⟩

/-! ## Theorems -/

/-- Claim C1. The claim fails on the code: the responders test anxiety before
the crisis keywords, so "anxious and suicidal" — which contains the crisis
trigger "suicid" and the anxiety trigger "anxious" — receives the anxiety
response, not the crisis response. The spec's crisis-precedence policy is the
stated intent (and the edge function's own system prompt directs crisis
mentions to a crisis helpline), so this is a defect of the code. -/
theorem crisis_precedence_fails_on_code :
    strIncludes (strToLower "anxious and suicidal") "suicid" = true ∧
    strIncludes (strToLower "anxious and suicidal") "anxious" = true ∧
    generateFallbackResponse "anxious and suicidal" = anxietyResponse ∧
    anxietyResponse ≠ crisisResponse ∧
    edgeGenerateFallbackResponse "anxious and suicidal" = edgeAnxietyResponse ∧
    edgeAnxietyResponse ≠ edgeCrisisResponse :=
  ⟨by decide, by decide, by decide, by decide, by decide, by decide⟩

/-- Claim C2. The claim fails on the code: a message containing the crisis
trigger "harm" together with the anxiety trigger "anxious" takes the anxiety
branch, whose response does not contain the 988 crisis-line referral (only the
crisis branch's response does). -/
theorem crisis_referral_fails_on_code :
    strIncludes (strToLower "anxious and want to harm myself") "harm" = true ∧
    generateFallbackResponse "anxious and want to harm myself" = anxietyResponse ∧
    strIncludes anxietyResponse "988" = false ∧
    strIncludes crisisResponse "988" = true :=
  ⟨by decide, by decide, by decide, by decide⟩

/-- Claim C5, counterexample. "thank you, i feel anxious" contains "thank" and
the anxiety trigger "anxious" and no crisis trigger, yet the responder returns
the anxiety response, not the gratitude response: the anxiety check precedes
the gratitude check in the code. -/
theorem gratitude_precedence_fails_on_code :
    strIncludes (strToLower "thank you, i feel anxious") "thank" = true ∧
    strIncludes (strToLower "thank you, i feel anxious") "anxious" = true ∧
    strIncludes (strToLower "thank you, i feel anxious") "help" = false ∧
    strIncludes (strToLower "thank you, i feel anxious") "crisis" = false ∧
    strIncludes (strToLower "thank you, i feel anxious") "harm" = false ∧
    strIncludes (strToLower "thank you, i feel anxious") "suicid" = false ∧
    generateFallbackResponse "thank you, i feel anxious" = anxietyResponse ∧
    anxietyResponse ≠ gratitudeResponse :=
  ⟨by decide, by decide, by decide, by decide, by decide, by decide, by decide, by decide⟩

/-- Claim C5, amended: for every input containing "thank" and an anxiety
trigger substring ("anxious" or "anxiety") but no crisis trigger substring,
the fallback responder returns the anxiety category's canned response (the
anxiety check is the first branch of the cascade). -/
theorem thank_with_anxiety_returns_anxiety (m : String)
    (hthank : strIncludes (strToLower m) "thank" = true)
    (hanx : strIncludes (strToLower m) "anxious" = true ∨
      strIncludes (strToLower m) "anxiety" = true)
    (hcrisis : strIncludes (strToLower m) "help" = false ∧
      strIncludes (strToLower m) "crisis" = false ∧
      strIncludes (strToLower m) "harm" = false ∧
      strIncludes (strToLower m) "suicid" = false) :
    generateFallbackResponse m = anxietyResponse := by
  unfold generateFallbackResponse
  rcases hanx with h | h <;> simp [h]

/-- Witness for `thank_with_anxiety_returns_anxiety` at a concrete input. -/
theorem thank_with_anxiety_returns_anxiety_witness :
    generateFallbackResponse "thank you, i am anxious" = anxietyResponse :=
  thank_with_anxiety_returns_anxiety "thank you, i am anxious" (by decide)
    (Or.inl (by decide)) ⟨by decide, by decide, by decide, by decide⟩

/-- Claim C8: the fallback responder is total — for every input string it
returns a non-empty string, and when no trigger substring matches it returns
the generic supportive default prompt. -/
theorem generateFallbackResponse_total (m : String) :
    generateFallbackResponse m ≠ "" ∧
    (mentionsTrigger m = false → generateFallbackResponse m = defaultResponse) := by
  constructor
  · simp only [generateFallbackResponse]
    split_ifs <;> decide
  · intro h
    simp only [mentionsTrigger] at h
    simp only [generateFallbackResponse]
    split_ifs <;> first | rfl | (exfalso; simp_all)

/-- Witness for `generateFallbackResponse_total` at a concrete trigger-free
input. -/
theorem generateFallbackResponse_total_witness :
    generateFallbackResponse "hi there" ≠ "" ∧
    generateFallbackResponse "hi there" = defaultResponse :=
  ⟨(generateFallbackResponse_total "hi there").1,
   (generateFallbackResponse_total "hi there").2 (by decide)⟩

/-- Claim C10: the client-side and the server-side fallback responders select
the same category for every input string — they test the same trigger
substrings in the same order — and each returns its own implementation's
response text for that category. -/
theorem fallback_responders_agree (m : String) :
    clientCategory m = edgeCategory m ∧
    generateFallbackResponse m = clientResponseFor (clientCategory m) ∧
    edgeGenerateFallbackResponse m = edgeResponseFor (edgeCategory m) := by
  refine ⟨rfl, ?_, ?_⟩
  · simp only [generateFallbackResponse, clientCategory]
    split_ifs <;> rfl
  · simp only [edgeGenerateFallbackResponse, edgeCategory]
    split_ifs <;> rfl

/-- Helper: whenever the remote call fails in a way that throws (transport
error or non-`ok` status), `callChatbotAPI` returns the fallback applied to
the user message and sets the advisory. -/
theorem callChatbotAPI_fallback_of_failure
    (remote : List (String × String) → String → RemoteOutcome)
    (msgs : List MessageRow) (msg : String)
    (h : remote (conversationHistory msgs) msg = RemoteOutcome.transportError ∨
      ∃ rf, remote (conversationHistory msgs) msg = RemoteOutcome.httpResponse false rf) :
    callChatbotAPI remote msgs msg = ⟨generateFallbackResponse msg, true⟩ := by
  unfold callChatbotAPI
  rcases h with h | ⟨rf, h⟩ <;> rw [h] <;> rfl

/-- Claim C4, counterexample. A 2xx response whose parsed body has no
`response` field does not route to the fallback responder: the code's
`data.response || '...'` substitutes the hard-coded default string, which
differs from the fallback's output for the same message. -/
theorem callChatbotAPI_missing_field_not_fallback :
    (callChatbotAPI (fun _ _ => RemoteOutcome.httpResponse true none) []
      "i feel anxious").text = missingReplyDefault ∧
    missingReplyDefault ≠ generateFallbackResponse "i feel anxious" :=
  ⟨rfl, by decide⟩

/-- Claim C4, amended: on transport error or non-success HTTP status the
reply is the Fallback Responder applied to the original user message only;
on a 2xx response whose body lacks a usable `response` field (absent, or the
falsy empty string) the reply is the fixed default string
`missingReplyDefault`, not the fallback. -/
theorem callChatbotAPI_failure_semantics
    (remote : List (String × String) → String → RemoteOutcome)
    (msgs : List MessageRow) (msg : String) :
    (remote (conversationHistory msgs) msg = RemoteOutcome.transportError →
      callChatbotAPI remote msgs msg = ⟨generateFallbackResponse msg, true⟩) ∧
    (∀ rf, remote (conversationHistory msgs) msg = RemoteOutcome.httpResponse false rf →
      callChatbotAPI remote msgs msg = ⟨generateFallbackResponse msg, true⟩) ∧
    (remote (conversationHistory msgs) msg = RemoteOutcome.httpResponse true none →
      callChatbotAPI remote msgs msg = ⟨missingReplyDefault, false⟩) ∧
    (remote (conversationHistory msgs) msg = RemoteOutcome.httpResponse true (some "") →
      callChatbotAPI remote msgs msg = ⟨missingReplyDefault, false⟩) := by
  refine ⟨fun h => callChatbotAPI_fallback_of_failure remote msgs msg (Or.inl h),
    fun rf h => callChatbotAPI_fallback_of_failure remote msgs msg (Or.inr ⟨rf, h⟩),
    fun h => ?_, fun h => ?_⟩ <;>
  · unfold callChatbotAPI
    rw [h]
    rfl

/-- Witness for `callChatbotAPI_failure_semantics`, discharging each of its
hypotheses at a concrete remote oracle. -/
theorem callChatbotAPI_failure_semantics_witness :
    callChatbotAPI (fun _ _ => RemoteOutcome.transportError) [] "i am sad"
      = ⟨generateFallbackResponse "i am sad", true⟩ ∧
    callChatbotAPI (fun _ _ => RemoteOutcome.httpResponse false none) [] "i am sad"
      = ⟨generateFallbackResponse "i am sad", true⟩ ∧
    callChatbotAPI (fun _ _ => RemoteOutcome.httpResponse true none) [] "i am sad"
      = ⟨missingReplyDefault, false⟩ ∧
    callChatbotAPI (fun _ _ => RemoteOutcome.httpResponse true (some "")) [] "i am sad"
      = ⟨missingReplyDefault, false⟩ :=
  ⟨(callChatbotAPI_failure_semantics _ [] _).1 rfl,
   (callChatbotAPI_failure_semantics _ [] _).2.1 none rfl,
   (callChatbotAPI_failure_semantics _ [] _).2.2.1 rfl,
   (callChatbotAPI_failure_semantics _ [] _).2.2.2 rfl⟩

/-- Claim C9: history independence of the fallback path. For any two
conversation histories and the same user message, if the remote call fails
for both, the produced reply is the Fallback Responder applied to the user
message alone — identical across the two histories. -/
theorem fallback_history_independent
    (remote : List (String × String) → String → RemoteOutcome)
    (msgs1 msgs2 : List MessageRow) (msg : String)
    (h1 : remote (conversationHistory msgs1) msg = RemoteOutcome.transportError ∨
      ∃ rf, remote (conversationHistory msgs1) msg = RemoteOutcome.httpResponse false rf)
    (h2 : remote (conversationHistory msgs2) msg = RemoteOutcome.transportError ∨
      ∃ rf, remote (conversationHistory msgs2) msg = RemoteOutcome.httpResponse false rf) :
    (callChatbotAPI remote msgs1 msg).text = generateFallbackResponse msg ∧
    (callChatbotAPI remote msgs2 msg).text = generateFallbackResponse msg ∧
    (callChatbotAPI remote msgs1 msg).text = (callChatbotAPI remote msgs2 msg).text := by
  rw [callChatbotAPI_fallback_of_failure remote msgs1 msg h1,
    callChatbotAPI_fallback_of_failure remote msgs2 msg h2]
  exact ⟨rfl, rfl, rfl⟩

/-- Witness for `fallback_history_independent`: an empty history and a
one-message history, remote always failing. -/
theorem fallback_history_independent_witness :
    (callChatbotAPI (fun _ _ => RemoteOutcome.transportError) [] "i am stressed").text
      = generateFallbackResponse "i am stressed" ∧
    (callChatbotAPI (fun _ _ => RemoteOutcome.transportError)
      [⟨1, 7, "earlier message", false, 0⟩] "i am stressed").text
      = generateFallbackResponse "i am stressed" ∧
    (callChatbotAPI (fun _ _ => RemoteOutcome.transportError) [] "i am stressed").text
      = (callChatbotAPI (fun _ _ => RemoteOutcome.transportError)
        [⟨1, 7, "earlier message", false, 0⟩] "i am stressed").text :=
  fallback_history_independent (fun _ _ => RemoteOutcome.transportError)
    [] [⟨1, 7, "earlier message", false, 0⟩] "i am stressed"
    (Or.inl rfl) (Or.inl rfl)

/-- Claim C7: the validation guard of `sendMessage` is a no-op rejection —
empty/whitespace-only input, no active session, no user, or a turn already in
flight leaves the component state and the store unchanged and performs no
remote call. -/
theorem sendMessage_validation_noop
    (remote : List (String × String) → String → RemoteOutcome)
    (uF bF : Bool) (s : ChatState) (st : Store)
    (h : strTrim s.input = "" ∨ s.currentSession = none ∨ s.user = none ∨
      s.loading = true) :
    sendMessage remote uF bF s st = ⟨s, st, false⟩ := by
  unfold sendMessage
  rw [if_pos h]

/-- Witness for `sendMessage_validation_noop`: whitespace-only input. -/
theorem sendMessage_validation_noop_witness :
    sendMessage (fun _ _ => RemoteOutcome.transportError) false false
      ⟨"   ", false, "", [], some 1, some 7⟩ ⟨[], 0⟩
      = ⟨⟨"   ", false, "", [], some 1, some 7⟩, ⟨[], 0⟩, false⟩ :=
  sendMessage_validation_noop _ false false _ _ (Or.inl (by decide))

/-- Claim C3, counterexample. When the user-message insert fails, the typed
input has already been cleared (`setInput('')` runs before the insert), so
the text is not preserved for retry: starting from input "hello", the aborted
turn ends with an empty input field. -/
theorem sendMessage_user_insert_failure_clears_input :
    (sendMessage (fun _ _ => RemoteOutcome.transportError) true false
      ⟨"hello", false, "", [], some 1, some 7⟩ ⟨[], 0⟩).state.input = "" ∧
    ("hello" : String) ≠ "" :=
  ⟨by decide, by decide⟩

/-- Claim C3, amended: if persisting the user message fails, the turn aborts
with no assistant message generated — the store is unchanged and no remote
call is made — but the typed input text has already been cleared (it is not
preserved for retry). -/
theorem sendMessage_user_insert_failure_aborts
    (remote : List (String × String) → String → RemoteOutcome)
    (bF : Bool) (s : ChatState) (st : Store) (sid uid : Nat)
    (hin : strTrim s.input ≠ "") (hsid : s.currentSession = some sid)
    (huid : s.user = some uid) (hld : s.loading = false) :
    (sendMessage remote true bF s st).store = st ∧
    (sendMessage remote true bF s st).remoteCalled = false ∧
    (sendMessage remote true bF s st).state.input = "" ∧
    (sendMessage remote true bF s st).state.loading = false := by
  obtain ⟨inp, ld, ae, msgs, cs, us⟩ := s
  simp only at hin hsid huid hld
  subst hsid; subst huid; subst hld
  have e : sendMessage remote true bF ⟨inp, false, ae, msgs, some sid, some uid⟩ st
      = ⟨⟨"", false, "", msgs, some sid, some uid⟩, st, false⟩ := by
    unfold sendMessage
    rw [if_neg]
    · rfl
    · simp [hin]
  rw [e]
  exact ⟨rfl, rfl, rfl, rfl⟩

/-- Witness for `sendMessage_user_insert_failure_aborts` at concrete state
and store. -/
theorem sendMessage_user_insert_failure_aborts_witness :
    (sendMessage (fun _ _ => RemoteOutcome.transportError) true false
      ⟨"hello", false, "", [], some 1, some 7⟩ ⟨[], 0⟩).store = ⟨[], 0⟩ ∧
    (sendMessage (fun _ _ => RemoteOutcome.transportError) true false
      ⟨"hello", false, "", [], some 1, some 7⟩ ⟨[], 0⟩).remoteCalled = false ∧
    (sendMessage (fun _ _ => RemoteOutcome.transportError) true false
      ⟨"hello", false, "", [], some 1, some 7⟩ ⟨[], 0⟩).state.input = "" ∧
    (sendMessage (fun _ _ => RemoteOutcome.transportError) true false
      ⟨"hello", false, "", [], some 1, some 7⟩ ⟨[], 0⟩).state.loading = false :=
  sendMessage_user_insert_failure_aborts (fun _ _ => RemoteOutcome.transportError)
    false ⟨"hello", false, "", [], some 1, some 7⟩ ⟨[], 0⟩ 1 7 (by decide) rfl rfl rfl

/-- Claim C6: for an accepted submission whose store operations succeed, the
session's stored message list afterwards is the previous list plus exactly
two new rows — the user-authored message (carrying the trimmed input, stamped
first) followed by the assistant-authored message, with the user row's
`created_at` no later than the assistant row's. -/
theorem sendMessage_appends_user_then_bot
    (remote : List (String × String) → String → RemoteOutcome)
    (s : ChatState) (st : Store) (sid uid : Nat)
    (hin : strTrim s.input ≠ "") (hsid : s.currentSession = some sid)
    (huid : s.user = some uid) (hld : s.loading = false) :
    ∃ u b : MessageRow,
      sessionRows (sendMessage remote false false s st).store sid
        = sessionRows st sid ++ [u, b] ∧
      u.is_bot = false ∧ b.is_bot = true ∧
      u.message = strTrim s.input ∧
      u.created_at ≤ b.created_at := by
  obtain ⟨inp, ld, ae, msgs, cs, us⟩ := s
  simp only at hin hsid huid hld
  subst hsid; subst huid; subst hld
  refine ⟨⟨sid, uid, strTrim inp, false, st.now⟩,
    ⟨sid, uid, (callChatbotAPI remote msgs (strTrim inp)).text, true, st.now + 1⟩,
    ?_, rfl, rfl, rfl, Nat.le_succ _⟩
  have e : sendMessage remote false false ⟨inp, false, ae, msgs, some sid, some uid⟩ st
      = ⟨⟨"", false,
          (if (callChatbotAPI remote msgs (strTrim inp)).apiErrorSet then
            connectionIssueMessage else ""),
          sessionRows ⟨st.rows ++ [⟨sid, uid, strTrim inp, false, st.now⟩]
            ++ [⟨sid, uid, (callChatbotAPI remote msgs (strTrim inp)).text, true,
              st.now + 1⟩], st.now + 1 + 1⟩ sid,
          some sid, some uid⟩,
        ⟨st.rows ++ [⟨sid, uid, strTrim inp, false, st.now⟩]
          ++ [⟨sid, uid, (callChatbotAPI remote msgs (strTrim inp)).text, true,
            st.now + 1⟩], st.now + 1 + 1⟩, true⟩ := by
    unfold sendMessage
    rw [if_neg]
    · rfl
    · simp [hin]
  rw [e]
  simp only [sessionRows, List.filter_append]
  simp

/-- Witness for `sendMessage_appends_user_then_bot` at concrete state, store
and failing remote (fallback path). -/
theorem sendMessage_appends_user_then_bot_witness :
    ∃ u b : MessageRow,
      sessionRows (sendMessage (fun _ _ => RemoteOutcome.transportError) false false
        ⟨"hello", false, "", [], some 1, some 7⟩ ⟨[], 0⟩).store 1
        = sessionRows ⟨[], 0⟩ 1 ++ [u, b] ∧
      u.is_bot = false ∧ b.is_bot = true ∧
      u.message = strTrim "hello" ∧
      u.created_at ≤ b.created_at :=
  sendMessage_appends_user_then_bot (fun _ _ => RemoteOutcome.transportError)
    ⟨"hello", false, "", [], some 1, some 7⟩ ⟨[], 0⟩ 1 7 (by decide) rfl rfl rfl

end MindMate
